import Mathlib

/-!
Verification development for the Reader plugin's Reading Session Engine
(`src/views/epub-view.ts`), the Footnote Popover Controller
(`src/views/footnote-popover-controller.ts`), and the settings/location
bookkeeping in `src/main.ts`.

The TypeScript code is shallowly embedded: class fields become record
fields, methods become pure functions from state (plus event data) to
state (plus an action describing the externally visible effect), JS sets
become `Finset Nat`, the settings record map becomes a function
`String → Option String`, and asynchronous completion callbacks become
explicit step functions applied when the corresponding promise settles.
DOM queries (element classification, anchor resolution, text extraction)
are environment capabilities passed in as data or functions, mirroring
the code's use of the DOM as an external collaborator.
-/

namespace Reader

/-- A flattened table-of-contents entry, from `ReaderToolbarTocItem` in
`src/types.ts`: `value` is the raw href used for navigation, `label` the
display label, `hrefKey` the normalized key used for matching. -/
structure ReaderToolbarTocItem where
  value : String
  label : String
  hrefKey : String
deriving DecidableEq, Repr

/-- Toolbar snapshot, from `ReaderToolbarState` in `src/types.ts`. -/
structure ReaderToolbarState where
  canNavigate : Bool
  chapterTitle : String
  selectedHrefKey : Option String
  tocItems : List ReaderToolbarTocItem
deriving DecidableEq, Repr

/-- `AUTO_MIN_SPREAD_WIDTH` constant in `epub-view.ts`. -/
def AUTO_MIN_SPREAD_WIDTH : Nat := 800

/-- `ALWAYS_MIN_SPREAD_WIDTH` constant in `epub-view.ts`. -/
def ALWAYS_MIN_SPREAD_WIDTH : Nat := 0

/-- Rendering-engine configuration produced by the display-mode resolver,
from `DisplayModeRenditionConfig` in `epub-view.ts`. -/
structure DisplayModeRenditionConfig where
  flow : String
  manager : String
  spread : String
  minSpreadWidth : Nat
deriving DecidableEq, Repr

/-- The display-mode resolver `getRenditionConfig` from `epub-view.ts`.
At runtime the mode is a string; the source compares against the three
non-default literals and falls through to the spread-auto configuration
for anything else. -/
def getRenditionConfig (mode : String) : DisplayModeRenditionConfig :=
  if mode = "spread-always" then
    { flow := "paginated", manager := "default", spread := "always",
      minSpreadWidth := ALWAYS_MIN_SPREAD_WIDTH }
  else if mode = "spread-none" then
    { flow := "paginated", manager := "default", spread := "none",
      minSpreadWidth := AUTO_MIN_SPREAD_WIDTH }
  else if mode = "scroll-continuous" then
    { flow := "scrolled-continuous", manager := "continuous", spread := "none",
      minSpreadWidth := ALWAYS_MIN_SPREAD_WIDTH }
  else
    { flow := "paginated", manager := "default", spread := "auto",
      minSpreadWidth := AUTO_MIN_SPREAD_WIDTH }

/-- `isContinuousFlow` from `epub-view.ts`; the argument is
`string | undefined` in the source, embedded as `Option String`. -/
def isContinuousFlow (flow : Option String) : Bool :=
  flow = some "scrolled" || flow = some "scrolled-doc" || flow = some "scrolled-continuous"

/-- JS `String.prototype.startsWith`, embedded character-wise so that it
evaluates inside the kernel. -/
def jsStartsWith (s pre : String) : Bool :=
  pre.data.isPrefixOf s.data

/-- The predicate tested by the fallback `find` call inside
`findBestMatchingHrefKey` in `epub-view.ts`: the normalized href starts
with the item's key or the item's key starts with the normalized href. -/
def hrefKeyMatches (normalizedHref : String) (item : ReaderToolbarTocItem) : Bool :=
  jsStartsWith normalizedHref item.hrefKey || jsStartsWith item.hrefKey normalizedHref

/-- `findBestMatchingHrefKey` from `epub-view.ts`: first an exact
`hrefKey` match; otherwise the first item (in document order) matching
`hrefKeyMatches`; otherwise `none`. -/
def findBestMatchingHrefKey (toolbarTocItems : List ReaderToolbarTocItem)
    (normalizedHref : String) : Option String :=
  match toolbarTocItems.find? (fun item => item.hrefKey = normalizedHref) with
  | some exact => some exact.hrefKey
  | none =>
    (toolbarTocItems.find? (fun item => hrefKeyMatches normalizedHref item)).map
      (fun item => item.hrefKey)

/-- Rendition settings relevant to display-mode switching, from the
`rendition.settings` object accessed by `updatePageDisplayMode`. -/
structure RenditionSettings where
  flow : Option String
  spread : String
  minSpreadWidth : Nat
deriving DecidableEq, Repr

/-- The live rendition, reduced to the state `updatePageDisplayMode` and
`cleanupBook` observe and mutate. -/
structure RenditionState where
  settings : RenditionSettings
deriving DecidableEq, Repr

/-- The `EpubReaderView` fields involved in the lifecycle, toolbar and
prefetch claims. `book` and `footnotePopoverController` only matter
through presence/absence for these operations, so they are `Option Unit`;
JS `Set<number>` fields are `Finset Nat`. -/
structure EpubReaderViewState where
  book : Option Unit
  rendition : Option RenditionState
  footnotePopoverController : Option Unit
  file : Option String
  tocLabelByHref : List (String × String)
  toolbarTocItems : List ReaderToolbarTocItem
  toolbarChapterTitle : String
  toolbarSelectedHrefKey : Option String
  prefetchedSectionIndexes : Finset Nat
  prefetchInFlightIndexes : Finset Nat
  lastPrefetchAnchorIndex : Option Nat
  prefetchSessionId : Nat
deriving DecidableEq

/-- `getToolbarState` from `epub-view.ts`: `canNavigate` is rendition
presence, and `tocItems` is a copy of each item (`{ ...item }`) in a new
array — at the value level the copy reproduces each field. -/
def getToolbarState (s : EpubReaderViewState) : ReaderToolbarState :=
  { canNavigate := s.rendition.isSome,
    chapterTitle := s.toolbarChapterTitle,
    selectedHrefKey := s.toolbarSelectedHrefKey,
    tocItems := s.toolbarTocItems.map (fun item =>
      { value := item.value, label := item.label, hrefKey := item.hrefKey }) }

/-- `cleanupBook` from `epub-view.ts`, state transition only. The DOM /
engine side (deregistering hooks, destroying rendition and book,
destroying the footnote controller) is wrapped in per-step try/catch in
the source and never throws outward; its state effect is nulling the
handles. The method increments the prefetch session id, clears the
prefetch sets and anchor, nulls book/rendition/controller, clears the
TOC map, items, chapter title and selection. -/
def cleanupBook (s : EpubReaderViewState) : EpubReaderViewState :=
  { s with
    prefetchSessionId := s.prefetchSessionId + 1,
    prefetchedSectionIndexes := ∅,
    prefetchInFlightIndexes := ∅,
    lastPrefetchAnchorIndex := none,
    rendition := none,
    book := none,
    footnotePopoverController := none,
    tocLabelByHref := [],
    toolbarTocItems := [],
    toolbarChapterTitle := "",
    toolbarSelectedHrefKey := none }

/-- The toolbar state the spec calls "no session". -/
def noSessionToolbarState : ReaderToolbarState :=
  { canNavigate := false, chapterTitle := "", selectedHrefKey := none, tocItems := [] }

/-- A spine section as seen by the prefetch scheduler
(`PrefetchSectionLike` in `epub-view.ts`): an optional numeric index and
whether it exposes a `load` function. -/
structure PrefetchSectionLike where
  index : Option Nat
  hasLoad : Bool
deriving DecidableEq, Repr

/-- The synchronous part of `queueSectionPrefetch` in `epub-view.ts`:
guards (book present, numeric index, `load` is a function, not already
prefetched or in flight), capture of `activeSessionId`, and insertion
into the in-flight set. Returns the updated state and, when a load was
actually started, the captured session id and section index carried by
the pending promise callbacks. -/
def queueSectionPrefetchStart (s : EpubReaderViewState) (sec : PrefetchSectionLike) :
    EpubReaderViewState × Option (Nat × Nat) :=
  match s.book, sec.index with
  | some _, some sectionIndex =>
    if !sec.hasLoad then (s, none)
    else if sectionIndex ∈ s.prefetchedSectionIndexes ∨
        sectionIndex ∈ s.prefetchInFlightIndexes then (s, none)
    else
      ({ s with prefetchInFlightIndexes := insert sectionIndex s.prefetchInFlightIndexes },
        some (s.prefetchSessionId, sectionIndex))
  | _, _ => (s, none)

/-- The completion callbacks of `queueSectionPrefetch` (`then`, `catch`,
`finally`), run when the load promise settles. Each compares the
captured `activeSessionId` against the current `prefetchSessionId` and
bails out on mismatch; on match, success adds the index to the
prefetched set (the `catch` branch only logs), and `finally` removes it
from the in-flight set. -/
def completeSectionPrefetch (s : EpubReaderViewState) (activeSessionId sectionIndex : Nat)
    (loadSucceeded : Bool) : EpubReaderViewState :=
  let afterSettle :=
    if loadSucceeded then
      if activeSessionId ≠ s.prefetchSessionId then s
      else { s with prefetchedSectionIndexes := insert sectionIndex s.prefetchedSectionIndexes }
    else s
  if activeSessionId ≠ afterSettle.prefetchSessionId then afterSettle
  else { afterSettle with
    prefetchInFlightIndexes := afterSettle.prefetchInFlightIndexes.erase sectionIndex }

end Reader

namespace Reader

/-- The shape of the location snapshot consumed by `extractCurrentCfi`:
an optional `start.cfi` and an optional top-level `cfi`. -/
structure CurrentLocationLike where
  startCfi : Option String
  topLevelCfi : Option String
deriving DecidableEq, Repr

/-- `extractCurrentCfi` from `epub-view.ts`: `undefined` for a missing
location, else `start.cfi` when it is a string, else the top-level `cfi`
when it is a string. -/
def extractCurrentCfi (location : Option CurrentLocationLike) : Option String :=
  match location with
  | none => none
  | some loc =>
    match loc.startCfi with
    | some cfi => some cfi
    | none => loc.topLevelCfi

/-- The externally visible outcome of `updatePageDisplayMode`. `reopen`
is the call `openFileWithMode(file, mode, currentCfi)`; `patchInPlace`
records the patched `minSpreadWidth` and `spread` plus the location that
is re-displayed under `withTimeout(·, redisplayTimeoutMs)`. -/
inductive PageDisplayModeAction where
  | noAction
  | reopen (preferredLocation : Option String)
  | patchInPlace (minSpreadWidth : Nat) (spread : String)
      (redisplayLocation : Option String) (redisplayTimeoutMs : Nat)
deriving DecidableEq, Repr

/-- `updatePageDisplayMode` from `epub-view.ts`, as a state transition
plus action. The current location snapshot (from
`rendition.currentLocation()`) is passed in as data. With no rendition
the method returns immediately. Otherwise it captures the current CFI,
resolves the next config, and compares flow families via
`isContinuousFlow`: on a family change it re-opens the file with the
captured CFI as preferred location (or returns if no file); otherwise it
patches `minSpreadWidth`, switches `flow` if different, applies
`spread`, and re-displays the captured location under an 8000 ms
timeout. -/
def updatePageDisplayMode (s : EpubReaderViewState) (mode : String)
    (currentLocation : Option CurrentLocationLike) :
    EpubReaderViewState × PageDisplayModeAction :=
  match s.rendition with
  | none => (s, .noAction)
  | some r =>
    let currentCfi := extractCurrentCfi currentLocation
    let nextConfig := getRenditionConfig mode
    let currentFlow := r.settings.flow
    let shouldRerender := isContinuousFlow currentFlow ≠ isContinuousFlow (some nextConfig.flow)
    if shouldRerender then
      match s.file with
      | none => (s, .noAction)
      | some _ => (s, .reopen currentCfi)
    else
      let flowAfter :=
        if r.settings.flow ≠ some nextConfig.flow then some nextConfig.flow
        else r.settings.flow
      let r2 : RenditionState :=
        { settings :=
            { flow := flowAfter, spread := nextConfig.spread,
              minSpreadWidth := nextConfig.minSpreadWidth } }
      ({ s with rendition := some r2 },
        .patchInPlace nextConfig.minSpreadWidth nextConfig.spread currentCfi 8000)

/-- An element reached from an event target, reduced to the result of the
one DOM query the tap recognizer runs on it
(`closest("a, button, input, …")` in `isTapNavigationIgnoredTarget`). -/
structure ElementLike where
  matchesInteractiveAncestor : Bool
deriving DecidableEq, Repr

/-- An `EventTarget` as the tap recognizer sees it: `resolvedElement` is
the target itself when its `nodeType` is 1, else its `parentElement`
(possibly absent). -/
structure EventTargetLike where
  resolvedElement : Option ElementLike
deriving DecidableEq, Repr

/-- `isTapNavigationIgnoredTarget` from `epub-view.ts`: `false` for a
null target or one with no resolvable element, else whether the element
has an interactive ancestor per the `closest` selector. -/
def isTapNavigationIgnoredTarget (target : Option EventTargetLike) : Bool :=
  match target with
  | none => false
  | some t =>
    match t.resolvedElement with
    | none => false
    | some el => el.matchesInteractiveAncestor

/-- A member of a `TouchList`: identifier and client coordinates
(fractional in the DOM, so embedded as rationals). -/
structure TouchPoint where
  identifier : Nat
  clientX : ℚ
  clientY : ℚ
deriving DecidableEq, Repr

/-- `PendingTapNavigationGesture` from `epub-view.ts`. -/
structure PendingTapNavigationGesture where
  touchIdentifier : Nat
  startX : ℚ
  startY : ℚ
  startedAt : ℚ
  target : Option EventTargetLike
deriving DecidableEq, Repr

/-- A `TouchEvent` as consumed by the recognizer handlers. -/
structure TouchEventLike where
  touches : List TouchPoint
  changedTouches : List TouchPoint
  target : Option EventTargetLike
  defaultPrevented : Bool
deriving DecidableEq, Repr

/-- The sub-document as the recognizer reads it: current selection text,
the three viewport width sources, and whether `defaultView` exists. -/
structure DocumentLike where
  selectionText : String
  documentElementClientWidth : Nat
  bodyClientWidth : Option Nat
  defaultViewInnerWidth : Option Nat
  hasDefaultView : Bool
deriving DecidableEq, Repr

/-- The view/plugin context consulted by
`shouldHandleTapNavigationEvent`: rendition presence, whether this view
is the active reader view, and the current page display mode setting. -/
structure TapNavigationContext where
  renditionOpen : Bool
  isActiveReaderView : Bool
  pageDisplayMode : String
deriving DecidableEq, Repr

/-- `TAP_NAVIGATION_MAX_DURATION_MS` from `epub-view.ts`. -/
def TAP_NAVIGATION_MAX_DURATION_MS : ℚ := 350

/-- `TAP_NAVIGATION_MAX_MOVE_PX` from `epub-view.ts`. -/
def TAP_NAVIGATION_MAX_MOVE_PX : ℚ := 10

/-- `TAP_NAVIGATION_LEFT_ZONE_MAX_RATIO` from `epub-view.ts` (0.4). -/
def tapNavigationLeftZoneMax : ℚ := 2/5

/-- `TAP_NAVIGATION_RIGHT_ZONE_MIN_RATIO` from `epub-view.ts` (0.6). -/
def tapNavigationRightZoneMin : ℚ := 3/5

/-- `shouldHandleTapNavigationEvent` from `epub-view.ts`. -/
def shouldHandleTapNavigationEvent (ctx : TapNavigationContext) (event : TouchEventLike)
    (targetDocument : DocumentLike) : Bool :=
  if event.defaultPrevented then false
  else if !ctx.renditionOpen then false
  else if !ctx.isActiveReaderView then false
  else if ctx.pageDisplayMode = "scroll-continuous" then false
  else if !targetDocument.hasDefaultView then false
  else true

/-- `findTouchByIdentifier` from `epub-view.ts`. -/
def findTouchByIdentifier (touches : List TouchPoint) (identifier : Nat) : Option TouchPoint :=
  touches.find? (fun touch => touch.identifier = identifier)

/-- JS `String.prototype.trim`, embedded character-wise so it evaluates
inside the kernel. -/
def jsTrim (s : String) : String :=
  ⟨((s.data.dropWhile Char.isWhitespace).reverse.dropWhile Char.isWhitespace).reverse⟩

/-- `hasTextSelection` from `epub-view.ts`: nonempty trimmed selection. -/
def hasTextSelection (targetDocument : DocumentLike) : Bool :=
  (jsTrim targetDocument.selectionText).length > 0

/-- `getDocumentViewportWidth` from `epub-view.ts`: first positive one of
`documentElement.clientWidth`, `body?.clientWidth ?? 0`,
`defaultView?.innerWidth ?? 0`, else `null`. -/
def getDocumentViewportWidth (targetDocument : DocumentLike) : Option Nat :=
  if targetDocument.documentElementClientWidth > 0 then
    some targetDocument.documentElementClientWidth
  else
    let bodyWidth := targetDocument.bodyClientWidth.getD 0
    if bodyWidth > 0 then some bodyWidth
    else
      let viewportWidth := targetDocument.defaultViewInnerWidth.getD 0
      if viewportWidth > 0 then some viewportWidth else none

/-- The page-turn action the tap recognizer fires. -/
inductive TapNavigationAction where
  | noAction
  | prevPage
  | nextPage
deriving DecidableEq, Repr

/-- `handleTapNavigationTouchEnd` from `epub-view.ts`, as a pure function
of the context, the sub-document, the pending gesture stored for that
document, the touch event, and the current time (`Date.now()`). Returns
the fired action and the new pending-gesture entry (the handler always
deletes the stored gesture). -/
def handleTapNavigationTouchEnd (ctx : TapNavigationContext) (targetDocument : DocumentLike)
    (pendingGesture : Option PendingTapNavigationGesture) (event : TouchEventLike)
    (now : ℚ) : TapNavigationAction × Option PendingTapNavigationGesture :=
  match pendingGesture with
  | none => (.noAction, none)
  | some pending =>
    if !shouldHandleTapNavigationEvent ctx event targetDocument then (.noAction, none)
    else if event.touches.length > 0 then (.noAction, none)
    else
      match findTouchByIdentifier event.changedTouches pending.touchIdentifier with
      | none => (.noAction, none)
      | some endedTouch =>
        if now - pending.startedAt > TAP_NAVIGATION_MAX_DURATION_MS then (.noAction, none)
        else if |endedTouch.clientX - pending.startX| > TAP_NAVIGATION_MAX_MOVE_PX ∨
            |endedTouch.clientY - pending.startY| > TAP_NAVIGATION_MAX_MOVE_PX then
          (.noAction, none)
        else if hasTextSelection targetDocument then (.noAction, none)
        else if isTapNavigationIgnoredTarget pending.target ∨
            isTapNavigationIgnoredTarget event.target then (.noAction, none)
        else
          match getDocumentViewportWidth targetDocument with
          | none => (.noAction, none)
          | some viewportWidth =>
            let positionRatio := endedTouch.clientX / (viewportWidth : ℚ)
            if positionRatio ≤ tapNavigationLeftZoneMax then (.prevPage, none)
            else if positionRatio ≥ tapNavigationRightZoneMin then (.nextPage, none)
            else (.noAction, none)

end Reader

namespace Reader

/-- Outcome of an engine promise, used to embed `withTimeout`: it either
resolves after a given number of milliseconds or rejects. -/
inductive PromiseOutcome where
  | resolvesAfter (ms : Nat)
  | rejects
deriving DecidableEq, Repr

/-- Whether `withTimeout(promise, ms, label)` from `epub-view.ts`
settles successfully: the promise must resolve before the `ms` timer
fires; a rejection or a timeout is a failure of the wrapped operation. -/
def withTimeoutSucceeds (outcome : PromiseOutcome) (ms : Nat) : Bool :=
  match outcome with
  | .resolvesAfter t => t < ms
  | .rejects => false

/-- What `displayWithFallback` ended up displaying. -/
inductive DisplayWithFallbackResult where
  | displayedSaved (location : String)
  | displayedStart
deriving DecidableEq, Repr

/-- `displayWithFallback` from `epub-view.ts`. `displayOutcome` models
`rendition.display(loc?)` for each possible argument (`none` is the
argumentless call showing the document start). A missing rendition
throws; a failed or timed-out saved-location display is logged and falls
through to the start display; a failure of the start display itself
propagates to the caller. -/
def displayWithFallback (renditionOpen : Bool)
    (displayOutcome : Option String → PromiseOutcome)
    (savedLocation : Option String) : Except String DisplayWithFallbackResult :=
  if !renditionOpen then .error "Rendition is not initialized."
  else
    let displayStart : Except String DisplayWithFallbackResult :=
      if withTimeoutSucceeds (displayOutcome none) 8000 then .ok .displayedStart
      else .error "Timeout while attempting to display start"
    match savedLocation with
    | some savedLoc =>
      if withTimeoutSucceeds (displayOutcome (some savedLoc)) 8000 then
        .ok (.displayedSaved savedLoc)
      else displayStart
    | none => displayStart

/-- A vault file as `handleFileDelete` / `handleFileRename` in
`src/main.ts` see it: its path, whether it is a `TFile`, and its
extension. -/
structure TAbstractFileLike where
  path : String
  isTFile : Bool
  extension : String
deriving DecidableEq, Repr

/-- JS `String.prototype.toLowerCase` as used on file extensions,
embedded as a per-character ASCII lowering so it evaluates inside the
kernel. -/
def toLowerCase (s : String) : String :=
  ⟨s.data.map Char.toLower⟩

/-- `isEpubFile` from `src/main.ts`. -/
def isEpubFile (file : TAbstractFileLike) : Bool :=
  file.isTFile && toLowerCase file.extension = "epub"

/-- `handleFileDelete` from `src/main.ts`, acting on the
`settings.lastLocations` record embedded as `String → Option String`:
non-epub files and paths without an entry leave the map unchanged;
otherwise exactly the file's entry is deleted. -/
def handleFileDelete (lastLocations : String → Option String)
    (file : TAbstractFileLike) : String → Option String :=
  if !isEpubFile file then lastLocations
  else
    match lastLocations file.path with
    | none => lastLocations
    | some _ => fun key => if key = file.path then none else lastLocations key

/-- `handleFileRename` from `src/main.ts`: when the old path has an
entry, that entry is deleted, and when the renamed file is an epub file
the stored location is re-inserted under the new path. -/
def handleFileRename (lastLocations : String → Option String)
    (file : TAbstractFileLike) (oldPath : String) : String → Option String :=
  match lastLocations oldPath with
  | none => lastLocations
  | some oldLocation =>
    let afterDelete : String → Option String :=
      fun key => if key = oldPath then none else lastLocations key
    if isEpubFile file then
      fun key => if key = file.path then some oldLocation else afterDelete key
    else afterDelete

/-- `LONG_PRESS_MS` from `footnote-popover-controller.ts`. -/
def LONG_PRESS_MS : Nat := 450

/-- `SUPPRESS_CLICK_MS` from `footnote-popover-controller.ts`. -/
def SUPPRESS_CLICK_MS : Nat := 900

/-- `AUTO_HIDE_MS` from `footnote-popover-controller.ts`. -/
def AUTO_HIDE_MS : Nat := 2000

/-- `TOUCH_MOVE_CANCEL_THRESHOLD_PX` from
`footnote-popover-controller.ts`. -/
def TOUCH_MOVE_CANCEL_THRESHOLD_PX : ℚ := 10

/-- `PendingLongPress` from `footnote-popover-controller.ts`. Anchors
are identified by a stable id (`Nat`); `timerDelayMs` records the delay
the `setTimeout` firing `fireLongPress` was armed with. -/
structure PendingLongPress where
  anchor : Nat
  timerDelayMs : Nat
  startX : ℚ
  startY : ℚ
  fired : Bool
deriving DecidableEq, Repr

/-- The per-sub-document `BoundContentsState` of the footnote popover
controller, reduced to its observable fields: the timer-id fields become
`Option Nat` holding the delay the timer was armed with (`none` when no
timer is pending), and the popover element becomes its visibility plus
displayed text. -/
structure FootnoteBindingState where
  activeAnchor : Option Nat
  pendingLongPress : Option PendingLongPress
  suppressClickAnchor : Option Nat
  suppressClickTimer : Option Nat
  autoHideTimer : Option Nat
  popoverVisible : Bool
  popoverText : String
deriving DecidableEq, Repr

/-- `clearPendingLongPress` from `footnote-popover-controller.ts`
(clearing the armed timer and dropping the pending gesture). -/
def clearPendingLongPress (s : FootnoteBindingState) : FootnoteBindingState :=
  { s with pendingLongPress := none }

/-- `clearSuppressClick` from `footnote-popover-controller.ts`. -/
def clearSuppressClick (s : FootnoteBindingState) : FootnoteBindingState :=
  { s with suppressClickAnchor := none, suppressClickTimer := none }

/-- `clearAutoHide` from `footnote-popover-controller.ts`. -/
def clearAutoHide (s : FootnoteBindingState) : FootnoteBindingState :=
  { s with autoHideTimer := none }

/-- `hidePopover` from `footnote-popover-controller.ts`. -/
def hidePopover (s : FootnoteBindingState) : FootnoteBindingState :=
  { s with popoverVisible := false }

/-- `showPopover` from `footnote-popover-controller.ts`: a no-op when
the document has no `defaultView`; otherwise it clears the auto-hide
timer, installs the text and makes the popover visible (the geometric
clamping only moves the element and is not part of this state). -/
def showPopover (hasDefaultView : Bool) (s : FootnoteBindingState) (text : String) :
    FootnoteBindingState :=
  if !hasDefaultView then s
  else
    let s := clearAutoHide s
    { s with popoverVisible := true, popoverText := text }

/-- `scheduleAutoHide` from `footnote-popover-controller.ts`: clears any
pending auto-hide timer and arms one for `AUTO_HIDE_MS`. -/
def scheduleAutoHide (s : FootnoteBindingState) : FootnoteBindingState :=
  let s := clearAutoHide s
  { s with autoHideTimer := some AUTO_HIDE_MS }

/-- `startSuppressClick` from `footnote-popover-controller.ts`: clears
any previous suppression, arms the anchor and a `SUPPRESS_CLICK_MS`
timer whose callback is `clearSuppressClick`. -/
def startSuppressClick (s : FootnoteBindingState) (anchor : Nat) : FootnoteBindingState :=
  let s := clearSuppressClick s
  { s with suppressClickAnchor := some anchor, suppressClickTimer := some SUPPRESS_CLICK_MS }

/-- The `setTimeout` callback armed by `startSuppressClick`, run when
the `SUPPRESS_CLICK_MS` window elapses without an intercepted click. -/
def suppressClickTimerFire (s : FootnoteBindingState) : FootnoteBindingState :=
  clearSuppressClick s

/-- The `setTimeout` callback armed by `scheduleAutoHide`. -/
def autoHideTimerFire (s : FootnoteBindingState) : FootnoteBindingState :=
  { hidePopover s with autoHideTimer := none }

/-- `handleTouchStart` from `footnote-popover-controller.ts`.
`targetAnchor` is the result of `findAnchorFromTarget(event.target)` and
`extractFootnoteText` is the DOM-dependent text-extraction heuristic for
this document, supplied as an environment function from anchor ids to
the extracted text. A touch on a non-anchor or a non-footnote anchor
clears any pending long press; otherwise a fresh pending long press is
armed with a `LONG_PRESS_MS` timer. -/
def handleTouchStart (extractFootnoteText : Nat → Option String)
    (s : FootnoteBindingState) (targetAnchor : Option Nat) (touch : Option (ℚ × ℚ)) :
    FootnoteBindingState :=
  match targetAnchor with
  | none => clearPendingLongPress s
  | some anchor =>
    match extractFootnoteText anchor with
    | none => clearPendingLongPress s
    | some _ =>
      match touch with
      | none => s
      | some (x, y) =>
        let s := clearPendingLongPress s
        let armed : PendingLongPress :=
          { anchor := anchor, timerDelayMs := LONG_PRESS_MS,
            startX := x, startY := y, fired := false }
        { s with pendingLongPress := some armed }

/-- `handleTouchMove` from `footnote-popover-controller.ts`: movement
beyond `TOUCH_MOVE_CANCEL_THRESHOLD_PX` on either axis cancels an
unfired pending long press. -/
def handleTouchMove (s : FootnoteBindingState) (touch : Option (ℚ × ℚ)) :
    FootnoteBindingState :=
  match s.pendingLongPress with
  | none => s
  | some pending =>
    if pending.fired then s
    else
      match touch with
      | none => s
      | some (x, y) =>
        if |x - pending.startX| > TOUCH_MOVE_CANCEL_THRESHOLD_PX ∨
            |y - pending.startY| > TOUCH_MOVE_CANCEL_THRESHOLD_PX then
          clearPendingLongPress s
        else s

/-- `fireLongPress` from `footnote-popover-controller.ts`, the callback
of the `LONG_PRESS_MS` timer: marks the pending gesture fired; if the
anchor still yields footnote text, shows the popover, arms click
suppression on the anchor, and schedules the auto-hide. -/
def fireLongPress (extractFootnoteText : Nat → Option String) (hasDefaultView : Bool)
    (s : FootnoteBindingState) : FootnoteBindingState :=
  match s.pendingLongPress with
  | none => s
  | some pending =>
    let s := { s with pendingLongPress := some { pending with fired := true } }
    match extractFootnoteText pending.anchor with
    | none => s
    | some footnoteText =>
      let s := showPopover hasDefaultView s footnoteText
      let s := startSuppressClick s pending.anchor
      scheduleAutoHide s

/-- How far a click event was intercepted. -/
structure ClickInterception where
  defaultPrevented : Bool
  propagationStopped : Bool
  immediatePropagationStopped : Bool
deriving DecidableEq, Repr

/-- A click that was not touched by the controller. -/
def clickNotIntercepted : ClickInterception :=
  { defaultPrevented := false, propagationStopped := false,
    immediatePropagationStopped := false }

/-- `handleClick` from `footnote-popover-controller.ts`: with no armed
suppression anchor, or a click whose resolved anchor differs from it,
the click passes through; a click on the armed anchor is fully
intercepted (`preventDefault`, `stopPropagation`,
`stopImmediatePropagation`) and the suppression is cleared. -/
def handleClick (s : FootnoteBindingState) (targetAnchor : Option Nat) :
    FootnoteBindingState × ClickInterception :=
  match s.suppressClickAnchor with
  | none => (s, clickNotIntercepted)
  | some suppressAnchor =>
    if targetAnchor ≠ some suppressAnchor then (s, clickNotIntercepted)
    else
      (clearSuppressClick s,
        { defaultPrevented := true, propagationStopped := true,
          immediatePropagationStopped := true })

/-- A JS heap cell relevant to `getToolbarState`: either a TOC item
object or an array object holding references to item objects. -/
inductive CellVal where
  | item (v : ReaderToolbarTocItem)
  | arr (refs : List Nat)
deriving DecidableEq, Repr

/-- A heap of JS objects as a list of cells; a reference is an index,
allocation appends, and references at or beyond the length are
dangling. -/
abbrev ToolbarHeap : Type := List CellVal

/-- Reading a sequence of item references. `none` when any reference is
dangling or does not point at an item object. -/
def readItemRefs (h : ToolbarHeap) (refs : List Nat) : Option (List ReaderToolbarTocItem) :=
  match refs with
  | [] => some []
  | r :: rest =>
    match (h : List CellVal)[r]? with
    | some (CellVal.item v) =>
      match readItemRefs h rest with
      | some vs => some (v :: vs)
      | none => none
    | _ => none

/-- The item values reachable from an array reference: the JS value of
`someArray.map(item => item)` without copying. -/
def readToolbarArray (h : ToolbarHeap) (arrRef : Nat) : Option (List ReaderToolbarTocItem) :=
  match (h : List CellVal)[arrRef]? with
  | some (CellVal.arr refs) => readItemRefs h refs
  | _ => none

/-- Allocation of the per-item copies made by
`this.toolbarTocItems.map((item) => ({ ...item }))`: one fresh item cell
per value, in order. Returns the extended heap and the fresh refs. -/
def allocItemCopies (h : ToolbarHeap) (vals : List ReaderToolbarTocItem) :
    ToolbarHeap × List Nat :=
  match vals with
  | [] => (h, [])
  | v :: rest =>
    let h1 : ToolbarHeap := (h : List CellVal) ++ [CellVal.item v]
    let result := allocItemCopies h1 rest
    (result.1, (h : List CellVal).length :: result.2)

/-- Heap-level `getToolbarState` restricted to its `tocItems` field:
reads the internal array and its items, allocates a fresh copy of every
item object and a fresh array object over the copies, and returns the
extended heap together with the reference handed to the caller. `none`
when the internal reference structure is broken (never the case for the
view's own fields). -/
def getToolbarStateHeap (h : ToolbarHeap) (internalArrRef : Nat) :
    Option (ToolbarHeap × Nat) :=
  match (h : List CellVal)[internalArrRef]? with
  | some (CellVal.arr refs) =>
    match readItemRefs h refs with
    | some vals =>
      let itemAlloc := allocItemCopies h vals
      some ((itemAlloc.1 : List CellVal) ++ [CellVal.arr itemAlloc.2],
        (itemAlloc.1 : List CellVal).length)
    | none => none
  | _ => none

/-- Mutation of a heap cell (a consumer assigning into a snapshot array
or one of its item objects). Writing to a dangling reference is a no-op
on the modeled cells. -/
def writeCell (h : ToolbarHeap) (r : Nat) (v : CellVal) : ToolbarHeap :=
  (h : List CellVal).set r v

/-- The observable "no session" view state from §8 of the spec:
rendition and book null, toolbar state equal to the empty snapshot, both
prefetch sets empty and the prefetch anchor cleared. -/
def noSessionObservable (s : EpubReaderViewState) : Prop :=
  s.rendition = none ∧ s.book = none ∧
  getToolbarState s = noSessionToolbarState ∧
  s.prefetchedSectionIndexes = ∅ ∧ s.prefetchInFlightIndexes = ∅ ∧
  s.lastPrefetchAnchorIndex = none

/-- The TOC of the spec's prefix-fallback example: keys `ch1` and
`ch1/s2` in that document order. -/
def c1TocItems : List ReaderToolbarTocItem :=
  [{ value := "ch1", label := "Chapter 1", hrefKey := "ch1" },
   { value := "ch1/s2", label := "Section 2", hrefKey := "ch1/s2" }]

end Reader

namespace Reader

/-- C8: the display-mode resolver is a pure total mapping matching the
spec table — spread-auto → (paginated, auto, 800), spread-always →
(paginated, always, 0), spread-none → (paginated, none, 800),
scroll-continuous → (scrolled-continuous, none, 0) — and any
unrecognized mode string falls closed to the spread-auto
configuration. -/
theorem c8_display_mode_resolver :
    getRenditionConfig "spread-auto" =
      { flow := "paginated", manager := "default", spread := "auto", minSpreadWidth := 800 } ∧
    getRenditionConfig "spread-always" =
      { flow := "paginated", manager := "default", spread := "always", minSpreadWidth := 0 } ∧
    getRenditionConfig "spread-none" =
      { flow := "paginated", manager := "default", spread := "none", minSpreadWidth := 800 } ∧
    getRenditionConfig "scroll-continuous" =
      { flow := "scrolled-continuous", manager := "continuous", spread := "none",
        minSpreadWidth := 0 } ∧
    ∀ mode : String, mode ≠ "spread-always" → mode ≠ "spread-none" →
      mode ≠ "scroll-continuous" → getRenditionConfig mode = getRenditionConfig "spread-auto" := by
  refine ⟨by decide, by decide, by decide, by decide, ?_⟩
  intro mode h1 h2 h3
  simp [getRenditionConfig, h1, h2, h3]

/-- C8 witness: the unrecognized mode string "bogus" resolves to the
spread-auto configuration. -/
theorem c8_display_mode_resolver_witness :
    getRenditionConfig "bogus" = getRenditionConfig "spread-auto" :=
  c8_display_mode_resolver.2.2.2.2 "bogus" (by decide) (by decide) (by decide)

/-- C3: teardown is idempotent and safe with no session open. The
embedded `cleanupBook` is a total function (each engine-side cleanup
step is individually try/caught in the source, so no input state makes
it throw), and after one or two consecutive calls — including from
states where book and rendition are already null — the observable state
is the "no session" state: rendition and book null, toolbar snapshot
`{canNavigate := false, chapterTitle := "", selectedHrefKey := none,
tocItems := []}`, prefetch sets empty. -/
theorem c3_cleanup_idempotent (s : EpubReaderViewState) :
    noSessionObservable (cleanupBook s) ∧
    noSessionObservable (cleanupBook (cleanupBook s)) := by
  constructor <;>
    simp [noSessionObservable, cleanupBook, getToolbarState, noSessionToolbarState]

/-- C2: a prefetch load started while the session counter equals `E`
whose completion runs after teardown (which bumps the counter to `E + 1`
and clears the sets) never adds its section index to the
prefetched-sections set, whether the load succeeded or failed. -/
theorem c2_stale_prefetch_discarded (s s1 : EpubReaderViewState) (sec : PrefetchSectionLike)
    (capturedEpoch sectionIndex : Nat) (loadSucceeded : Bool)
    (hstart : queueSectionPrefetchStart s sec = (s1, some (capturedEpoch, sectionIndex))) :
    sectionIndex ∉
      (completeSectionPrefetch (cleanupBook s1) capturedEpoch sectionIndex
        loadSucceeded).prefetchedSectionIndexes ∧
    ∀ (s2 : EpubReaderViewState) (b2 : Bool), s2.prefetchSessionId ≠ capturedEpoch →
      (completeSectionPrefetch s2 capturedEpoch sectionIndex b2).prefetchedSectionIndexes =
        s2.prefetchedSectionIndexes := by
  have hcap : capturedEpoch = s.prefetchSessionId ∧
      s1.prefetchSessionId = s.prefetchSessionId := by
    unfold queueSectionPrefetchStart at hstart
    split at hstart
    · split at hstart
      · simp at hstart
      · split at hstart
        · simp at hstart
        · simp only [Prod.mk.injEq, Option.some.injEq] at hstart
          obtain ⟨hs1, hcapEq, -⟩ := hstart
          exact ⟨hcapEq.symm, by rw [← hs1]⟩
    · simp at hstart
  obtain ⟨hcapEq, hs1Eq⟩ := hcap
  have hne : capturedEpoch ≠ (cleanupBook s1).prefetchSessionId := by
    simp [cleanupBook, hs1Eq, hcapEq]
  constructor
  · simp only [completeSectionPrefetch]
    have hclear : (cleanupBook s1).prefetchedSectionIndexes = ∅ := by simp [cleanupBook]
    cases loadSucceeded <;> simp [hne, hclear]
  · intro s2 b2 hne2
    simp only [completeSectionPrefetch]
    cases b2 <;> simp [Ne.symm hne2]

/-- C2 witness: a concrete session at epoch 0 starts prefetching section
3; teardown runs; the completion does not mark section 3 as loaded. -/
theorem c2_stale_prefetch_discarded_witness :
    3 ∉ (completeSectionPrefetch
        (cleanupBook ⟨some (), none, none, none, [], [], "", none, ∅, {3}, none, 0⟩)
        0 3 true).prefetchedSectionIndexes :=
  (c2_stale_prefetch_discarded
    ⟨some (), none, none, none, [], [], "", none, ∅, ∅, none, 0⟩
    ⟨some (), none, none, none, [], [], "", none, ∅, {3}, none, 0⟩
    ⟨some 3, true⟩ 0 3 true (by decide)).1

/-- C9: the per-document last-location map is keyed by path; deleting an
epub file whose path has an entry removes exactly that entry, and
renaming a file whose old path has an entry to an epub file re-keys the
stored location to the new path; in both cases every other key is
untouched. -/
theorem c9_last_location_map_events (lastLocations : String → Option String)
    (deletedFile renamedFile : TAbstractFileLike) (oldPath delLoc renLoc : String)
    (hdelEpub : isEpubFile deletedFile = true)
    (hdelEntry : lastLocations deletedFile.path = some delLoc)
    (hrenEpub : isEpubFile renamedFile = true)
    (hrenEntry : lastLocations oldPath = some renLoc) :
    (handleFileDelete lastLocations deletedFile deletedFile.path = none ∧
      ∀ key, key ≠ deletedFile.path →
        handleFileDelete lastLocations deletedFile key = lastLocations key) ∧
    (handleFileRename lastLocations renamedFile oldPath renamedFile.path = some renLoc ∧
      (oldPath ≠ renamedFile.path →
        handleFileRename lastLocations renamedFile oldPath oldPath = none) ∧
      ∀ key, key ≠ oldPath → key ≠ renamedFile.path →
        handleFileRename lastLocations renamedFile oldPath key = lastLocations key) := by
  refine ⟨⟨?_, ?_⟩, ?_, ?_, ?_⟩
  · simp [handleFileDelete, hdelEpub, hdelEntry]
  · intro key hkey
    simp [handleFileDelete, hdelEpub, hdelEntry, hkey]
  · simp [handleFileRename, hrenEpub, hrenEntry]
  · intro hne
    simp [handleFileRename, hrenEpub, hrenEntry, hne, Ne.symm hne]
  · intro key hko hkn
    simp [handleFileRename, hrenEpub, hrenEntry, hko, hkn]

/-- C9 witness: with entries for `a.epub` and `b.epub`, deleting
`a.epub` removes only its entry, and renaming `b.epub` to `c.epub`
re-keys its location, leaving the `a.epub` entry alone. -/
theorem c9_last_location_map_events_witness :
    (handleFileDelete
        (fun key => if key = "a.epub" then some "cfiA"
          else if key = "b.epub" then some "cfiB" else none)
        ⟨"a.epub", true, "epub"⟩ "a.epub" = none ∧
      ∀ key, key ≠ "a.epub" →
        handleFileDelete
          (fun key2 => if key2 = "a.epub" then some "cfiA"
            else if key2 = "b.epub" then some "cfiB" else none)
          ⟨"a.epub", true, "epub"⟩ key =
          (if key = "a.epub" then some "cfiA"
            else if key = "b.epub" then some "cfiB" else none)) ∧
    (handleFileRename
        (fun key => if key = "a.epub" then some "cfiA"
          else if key = "b.epub" then some "cfiB" else none)
        ⟨"c.epub", true, "epub"⟩ "b.epub" "c.epub" = some "cfiB" ∧
      ("b.epub" ≠ "c.epub" →
        handleFileRename
          (fun key => if key = "a.epub" then some "cfiA"
            else if key = "b.epub" then some "cfiB" else none)
          ⟨"c.epub", true, "epub"⟩ "b.epub" "b.epub" = none) ∧
      ∀ key, key ≠ "b.epub" → key ≠ "c.epub" →
        handleFileRename
          (fun key2 => if key2 = "a.epub" then some "cfiA"
            else if key2 = "b.epub" then some "cfiB" else none)
          ⟨"c.epub", true, "epub"⟩ "b.epub" key =
          (if key = "a.epub" then some "cfiA"
            else if key = "b.epub" then some "cfiB" else none)) :=
  c9_last_location_map_events
    (fun key => if key = "a.epub" then some "cfiA"
      else if key = "b.epub" then some "cfiB" else none)
    ⟨"a.epub", true, "epub"⟩ ⟨"c.epub", true, "epub"⟩ "b.epub" "cfiA" "cfiB"
    (by decide) (by decide) (by decide) (by decide)

/-- C7: with a session open and the start display resolving within its
timeout, `displayWithFallback` first attempts the preferred location
under the 8000 ms timeout and returns it on success; on failure of that
attempt (a rejection or a timeout), or when no saved location exists, it
displays the document start and reports success — the preferred-location
failure is only logged, not propagated. -/
theorem c7_display_with_fallback (displayOutcome : Option String → PromiseOutcome)
    (hstartOk : withTimeoutSucceeds (displayOutcome none) 8000 = true) :
    (∀ savedLoc, withTimeoutSucceeds (displayOutcome (some savedLoc)) 8000 = true →
      displayWithFallback true displayOutcome (some savedLoc) =
        .ok (.displayedSaved savedLoc)) ∧
    (∀ savedLoc, withTimeoutSucceeds (displayOutcome (some savedLoc)) 8000 = false →
      displayWithFallback true displayOutcome (some savedLoc) = .ok .displayedStart) ∧
    displayWithFallback true displayOutcome none = .ok .displayedStart := by
  refine ⟨?_, ?_, ?_⟩
  · intro savedLoc hok
    simp [displayWithFallback, hok]
  · intro savedLoc hfail
    simp [displayWithFallback, hfail, hstartOk]
  · simp [displayWithFallback, hstartOk]

/-- C7 witness: a saved location whose display rejects (covering the
timeout case via `withTimeoutSucceeds`) falls back to the start
display, and the absence of a saved location displays the start. -/
theorem c7_display_with_fallback_witness :
    (displayWithFallback true
        (fun loc => match loc with
          | some _ => PromiseOutcome.rejects
          | none => PromiseOutcome.resolvesAfter 5)
        (some "epubcfi(/6/4!/4/2)") = .ok .displayedStart) ∧
    displayWithFallback true
        (fun loc => match loc with
          | some _ => PromiseOutcome.rejects
          | none => PromiseOutcome.resolvesAfter 5)
        none = .ok .displayedStart :=
  ⟨(c7_display_with_fallback
      (fun loc => match loc with
        | some _ => PromiseOutcome.rejects
        | none => PromiseOutcome.resolvesAfter 5) (by decide)).2.1
      "epubcfi(/6/4!/4/2)" (by decide),
    (c7_display_with_fallback
      (fun loc => match loc with
        | some _ => PromiseOutcome.rejects
        | none => PromiseOutcome.resolvesAfter 5) (by decide)).2.2⟩

/-- C4: with an open session (rendition and file present), a mode switch
whose flow family (continuous vs. paginated, per `isContinuousFlow`)
differs from the current flow re-opens the file with the pre-switch CFI
as preferred location, while a same-family switch patches the rendition
in place — new `minSpreadWidth` and `spread` from the resolver — and
re-displays the captured location under an 8000 ms timeout. -/
theorem c4_display_mode_switch (s : EpubReaderViewState) (r : RenditionState)
    (filePath mode : String) (currentLocation : Option CurrentLocationLike)
    (hr : s.rendition = some r) (hf : s.file = some filePath) :
    (isContinuousFlow r.settings.flow ≠ isContinuousFlow (some (getRenditionConfig mode).flow) →
      (updatePageDisplayMode s mode currentLocation).2 =
        .reopen (extractCurrentCfi currentLocation)) ∧
    (isContinuousFlow r.settings.flow = isContinuousFlow (some (getRenditionConfig mode).flow) →
      (updatePageDisplayMode s mode currentLocation).2 =
        .patchInPlace (getRenditionConfig mode).minSpreadWidth (getRenditionConfig mode).spread
          (extractCurrentCfi currentLocation) 8000 ∧
      ((updatePageDisplayMode s mode currentLocation).1.rendition.map
          (fun r2 => r2.settings.minSpreadWidth)) =
        some (getRenditionConfig mode).minSpreadWidth) := by
  constructor
  · intro hdiff
    simp [updatePageDisplayMode, hr, hf, hdiff]
  · intro hsame
    simp [updatePageDisplayMode, hr, hf, hsame]

/-- C4 witness: from a paginated flow, switching to scroll-continuous
re-opens with the captured CFI, and switching to spread-none patches in
place and re-displays the captured CFI. -/
theorem c4_display_mode_switch_witness :
    ((updatePageDisplayMode
        ⟨some (), some ⟨⟨some "paginated", "auto", 800⟩⟩, none, some "book.epub",
          [], [], "", none, ∅, ∅, none, 0⟩
        "scroll-continuous" (some ⟨some "epubcfi(/6/2!/4)", none⟩)).2 =
      .reopen (some "epubcfi(/6/2!/4)")) ∧
    ((updatePageDisplayMode
        ⟨some (), some ⟨⟨some "paginated", "auto", 800⟩⟩, none, some "book.epub",
          [], [], "", none, ∅, ∅, none, 0⟩
        "spread-none" (some ⟨some "epubcfi(/6/2!/4)", none⟩)).2 =
      .patchInPlace 800 "none" (some "epubcfi(/6/2!/4)") 8000) :=
  ⟨(c4_display_mode_switch
      ⟨some (), some ⟨⟨some "paginated", "auto", 800⟩⟩, none, some "book.epub",
        [], [], "", none, ∅, ∅, none, 0⟩
      ⟨⟨some "paginated", "auto", 800⟩⟩ "book.epub" "scroll-continuous"
      (some ⟨some "epubcfi(/6/2!/4)", none⟩) rfl rfl).1 (by decide),
    ((c4_display_mode_switch
      ⟨some (), some ⟨⟨some "paginated", "auto", 800⟩⟩, none, some "book.epub",
        [], [], "", none, ∅, ∅, none, 0⟩
      ⟨⟨some "paginated", "auto", 800⟩⟩ "book.epub" "spread-none"
      (some ⟨some "epubcfi(/6/2!/4)", none⟩) rfl rfl).2 (by decide)).1⟩

/-- C1 counterexample: for TOC keys `ch1` and `ch1/s2` in document order
and a relocation href normalizing to `ch1/s2/extra`,
`findBestMatchingHrefKey` returns `ch1` — the first key in document
order satisfying the bidirectional `startsWith` test — not the longer
matching key `ch1/s2` the claim requires. -/
theorem c1_counterexample :
    findBestMatchingHrefKey c1TocItems "ch1/s2/extra" = some "ch1" ∧
    findBestMatchingHrefKey c1TocItems "ch1/s2/extra" ≠ some "ch1/s2" := by
  decide

/-- C1 amended: when no exact `hrefKey` match exists, the fallback
selects the FIRST key in document order that matches the normalized
href by `startsWith` in either direction — not the longest matching
key. Stated for any TOC split as `earlier ++ chosen :: later` where no
earlier item matches. -/
theorem c1_first_match_in_document_order (earlier later : List ReaderToolbarTocItem)
    (chosen : ReaderToolbarTocItem) (normalizedHref : String)
    (hNoExact : ∀ item ∈ earlier ++ chosen :: later, item.hrefKey ≠ normalizedHref)
    (hMatch : hrefKeyMatches normalizedHref chosen = true)
    (hEarlier : ∀ item ∈ earlier, hrefKeyMatches normalizedHref item = false) :
    findBestMatchingHrefKey (earlier ++ chosen :: later) normalizedHref =
      some chosen.hrefKey := by
  unfold findBestMatchingHrefKey
  have hexact : (earlier ++ chosen :: later).find?
      (fun item => item.hrefKey = normalizedHref) = none := by
    rw [List.find?_eq_none]
    intro item hmem
    simpa using hNoExact item hmem
  rw [hexact]
  have hfind : (earlier ++ chosen :: later).find?
      (fun item => hrefKeyMatches normalizedHref item) = some chosen := by
    rw [List.find?_append]
    have hpre : earlier.find? (fun item => hrefKeyMatches normalizedHref item) = none := by
      rw [List.find?_eq_none]
      intro item hmem
      simp [hEarlier item hmem]
    rw [hpre, List.find?_cons_of_pos _ hMatch]
    rfl
  rw [hfind]
  rfl

/-- C1 amended witness: instantiating the amended claim at the spec's
own example yields the key `ch1`. -/
theorem c1_first_match_in_document_order_witness :
    findBestMatchingHrefKey
      ([] ++ (⟨"ch1", "Chapter 1", "ch1"⟩ : ReaderToolbarTocItem) ::
        [⟨"ch1/s2", "Section 2", "ch1/s2"⟩]) "ch1/s2/extra" = some "ch1" :=
  c1_first_match_in_document_order [] [⟨"ch1/s2", "Section 2", "ch1/s2"⟩]
    ⟨"ch1", "Chapter 1", "ch1"⟩ "ch1/s2/extra" (by decide) (by decide) (by decide)

/-- C5: for a completed single-touch tap passing every filter (event not
default-prevented, session open, active view, non-continuous mode,
document with a view, no remaining touches, matching ended touch,
elapsed time ≤ 350 ms, movement ≤ 10 px on both axes, no text
selection, non-interactive start and end targets, positive viewport
width), the ratio of end X to viewport width decides navigation:
ratio ≤ 0.4 fires previous page, ratio ≥ 0.6 fires next page, a ratio
strictly between fires nothing; and in scroll-continuous mode the
recognizer never fires for any input. -/
theorem c5_tap_zone_dead_band (ctx : TapNavigationContext) (targetDocument : DocumentLike)
    (pending : PendingTapNavigationGesture) (event : TouchEventLike) (endedTouch : TouchPoint)
    (now : ℚ) (viewportWidth : Nat)
    (hdp : event.defaultPrevented = false)
    (hro : ctx.renditionOpen = true)
    (hav : ctx.isActiveReaderView = true)
    (hmode : ctx.pageDisplayMode ≠ "scroll-continuous")
    (hdv : targetDocument.hasDefaultView = true)
    (htouches : event.touches = [])
    (hfound : findTouchByIdentifier event.changedTouches pending.touchIdentifier =
      some endedTouch)
    (helapsed : now - pending.startedAt ≤ TAP_NAVIGATION_MAX_DURATION_MS)
    (hmx : |endedTouch.clientX - pending.startX| ≤ TAP_NAVIGATION_MAX_MOVE_PX)
    (hmy : |endedTouch.clientY - pending.startY| ≤ TAP_NAVIGATION_MAX_MOVE_PX)
    (hsel : hasTextSelection targetDocument = false)
    (htp : isTapNavigationIgnoredTarget pending.target = false)
    (hte : isTapNavigationIgnoredTarget event.target = false)
    (hw : getDocumentViewportWidth targetDocument = some viewportWidth) :
    (endedTouch.clientX / (viewportWidth : ℚ) ≤ 2/5 →
      (handleTapNavigationTouchEnd ctx targetDocument (some pending) event now).1 =
        .prevPage) ∧
    (endedTouch.clientX / (viewportWidth : ℚ) ≥ 3/5 →
      (handleTapNavigationTouchEnd ctx targetDocument (some pending) event now).1 =
        .nextPage) ∧
    (2/5 < endedTouch.clientX / (viewportWidth : ℚ) →
      endedTouch.clientX / (viewportWidth : ℚ) < 3/5 →
      (handleTapNavigationTouchEnd ctx targetDocument (some pending) event now).1 =
        .noAction) ∧
    (∀ (ctx2 : TapNavigationContext) (doc2 : DocumentLike)
        (pending2 : Option PendingTapNavigationGesture) (event2 : TouchEventLike) (now2 : ℚ),
      ctx2.pageDisplayMode = "scroll-continuous" →
      (handleTapNavigationTouchEnd ctx2 doc2 pending2 event2 now2).1 = .noAction) := by
  have hshould : shouldHandleTapNavigationEvent ctx event targetDocument = true := by
    simp [shouldHandleTapNavigationEvent, hdp, hro, hav, hmode, hdv]
  have hnotLate : ¬(now - pending.startedAt > TAP_NAVIGATION_MAX_DURATION_MS) :=
    not_lt.mpr helapsed
  have hnotMoved : ¬(|endedTouch.clientX - pending.startX| > TAP_NAVIGATION_MAX_MOVE_PX ∨
      |endedTouch.clientY - pending.startY| > TAP_NAVIGATION_MAX_MOVE_PX) := by
    push_neg
    exact ⟨hmx, hmy⟩
  have heval : handleTapNavigationTouchEnd ctx targetDocument (some pending) event now =
      (if endedTouch.clientX / (viewportWidth : ℚ) ≤ tapNavigationLeftZoneMax then
        (.prevPage, none)
      else if tapNavigationRightZoneMin ≤ endedTouch.clientX / (viewportWidth : ℚ) then
        (.nextPage, none)
      else (.noAction, none)) := by
    simp [handleTapNavigationTouchEnd, hshould, htouches, hfound, hsel, htp, hte, hw,
      hnotLate, hnotMoved]
  refine ⟨?_, ?_, ?_, ?_⟩
  · intro hratio
    rw [heval, if_pos (by simpa [tapNavigationLeftZoneMax] using hratio)]
  · intro hratio
    have hnotLeft : ¬endedTouch.clientX / (viewportWidth : ℚ) ≤ tapNavigationLeftZoneMax := by
      simp only [tapNavigationLeftZoneMax]
      have h1 : (2 : ℚ)/5 < 3/5 := by norm_num
      exact not_le.mpr (lt_of_lt_of_le h1 hratio)
    rw [heval, if_neg hnotLeft,
      if_pos (by simpa [tapNavigationRightZoneMin] using hratio)]
  · intro hlow hhigh
    have hnotLeft : ¬endedTouch.clientX / (viewportWidth : ℚ) ≤ tapNavigationLeftZoneMax := by
      simpa [tapNavigationLeftZoneMax] using not_le.mpr hlow
    have hnotRight : ¬tapNavigationRightZoneMin ≤ endedTouch.clientX / (viewportWidth : ℚ) := by
      simpa [tapNavigationRightZoneMin] using not_le.mpr hhigh
    rw [heval, if_neg hnotLeft, if_neg hnotRight]
  · intro ctx2 doc2 pending2 event2 now2 hcont
    have hshould2 : shouldHandleTapNavigationEvent ctx2 event2 doc2 = false := by
      simp only [shouldHandleTapNavigationEvent, hcont]
      split <;> simp_all
    cases pending2 with
    | none => simp [handleTapNavigationTouchEnd]
    | some pending2val => simp [handleTapNavigationTouchEnd, hshould2]

/-- C5 witness: a clean tap ending at x = 50 on a 100 px wide viewport
(ratio exactly 0.5, inside the dead band) fires no navigation. -/
theorem c5_tap_zone_dead_band_witness :
    (handleTapNavigationTouchEnd ⟨true, true, "spread-auto"⟩ ⟨"", 100, none, none, true⟩
      (some ⟨7, 50, 60, 1000, none⟩) ⟨[], [⟨7, 50, 60⟩], none, false⟩ 1200).1 =
      TapNavigationAction.noAction :=
  (c5_tap_zone_dead_band ⟨true, true, "spread-auto"⟩ ⟨"", 100, none, none, true⟩
    ⟨7, 50, 60, 1000, none⟩ ⟨[], [⟨7, 50, 60⟩], none, false⟩ ⟨7, 50, 60⟩ 1200 100
    rfl rfl rfl (by decide) rfl rfl rfl
    (by norm_num [TAP_NAVIGATION_MAX_DURATION_MS])
    (by norm_num [TAP_NAVIGATION_MAX_MOVE_PX])
    (by norm_num [TAP_NAVIGATION_MAX_MOVE_PX])
    rfl rfl rfl rfl).2.2.1 (by norm_num) (by norm_num)

/-- C6: a touch start on a footnote anchor arms a 450 ms long-press
timer; a move within the 10 px threshold keeps it armed; when the timer
fires, the popover is shown with the extracted text, click suppression
is armed on that anchor with a 900 ms window timer, and auto-hide is
scheduled for 2000 ms. A click on the armed anchor while the window
timer is still pending is fully intercepted (preventDefault,
stopPropagation, stopImmediatePropagation) and clears the suppression; a
click arriving after the window timer has fired is not intercepted. -/
theorem c6_long_press_click_suppression (extractFootnoteText : Nat → Option String)
    (s : FootnoteBindingState) (anchor : Nat) (footnoteText : String) (x y x2 y2 : ℚ)
    (hextract : extractFootnoteText anchor = some footnoteText)
    (hmx : |x2 - x| ≤ TOUCH_MOVE_CANCEL_THRESHOLD_PX)
    (hmy : |y2 - y| ≤ TOUCH_MOVE_CANCEL_THRESHOLD_PX) :
    (handleTouchStart extractFootnoteText s (some anchor) (some (x, y))).pendingLongPress =
      some { anchor := anchor, timerDelayMs := 450, startX := x, startY := y,
             fired := false } ∧
    (handleTouchMove (handleTouchStart extractFootnoteText s (some anchor) (some (x, y)))
        (some (x2, y2))).pendingLongPress =
      some { anchor := anchor, timerDelayMs := 450, startX := x, startY := y,
             fired := false } ∧
    ((fireLongPress extractFootnoteText true
        (handleTouchMove (handleTouchStart extractFootnoteText s (some anchor) (some (x, y)))
          (some (x2, y2)))).popoverVisible = true ∧
      (fireLongPress extractFootnoteText true
        (handleTouchMove (handleTouchStart extractFootnoteText s (some anchor) (some (x, y)))
          (some (x2, y2)))).popoverText = footnoteText ∧
      (fireLongPress extractFootnoteText true
        (handleTouchMove (handleTouchStart extractFootnoteText s (some anchor) (some (x, y)))
          (some (x2, y2)))).suppressClickAnchor = some anchor ∧
      (fireLongPress extractFootnoteText true
        (handleTouchMove (handleTouchStart extractFootnoteText s (some anchor) (some (x, y)))
          (some (x2, y2)))).suppressClickTimer = some 900 ∧
      (fireLongPress extractFootnoteText true
        (handleTouchMove (handleTouchStart extractFootnoteText s (some anchor) (some (x, y)))
          (some (x2, y2)))).autoHideTimer = some 2000) ∧
    ((handleClick (fireLongPress extractFootnoteText true
        (handleTouchMove (handleTouchStart extractFootnoteText s (some anchor) (some (x, y)))
          (some (x2, y2)))) (some anchor)).2 =
      ⟨true, true, true⟩ ∧
      (handleClick (fireLongPress extractFootnoteText true
        (handleTouchMove (handleTouchStart extractFootnoteText s (some anchor) (some (x, y)))
          (some (x2, y2)))) (some anchor)).1.suppressClickAnchor = none) ∧
    (handleClick (suppressClickTimerFire (fireLongPress extractFootnoteText true
        (handleTouchMove (handleTouchStart extractFootnoteText s (some anchor) (some (x, y)))
          (some (x2, y2))))) (some anchor)).2 = clickNotIntercepted := by
  have hnotMoved : ¬(|x2 - x| > TOUCH_MOVE_CANCEL_THRESHOLD_PX ∨
      |y2 - y| > TOUCH_MOVE_CANCEL_THRESHOLD_PX) := by
    push_neg
    exact ⟨hmx, hmy⟩
  have hstart : (handleTouchStart extractFootnoteText s (some anchor)
      (some (x, y))).pendingLongPress =
      some { anchor := anchor, timerDelayMs := 450, startX := x, startY := y,
             fired := false } := by
    simp [handleTouchStart, hextract, clearPendingLongPress, LONG_PRESS_MS]
  have hmove : (handleTouchMove (handleTouchStart extractFootnoteText s (some anchor)
      (some (x, y))) (some (x2, y2))).pendingLongPress =
      some { anchor := anchor, timerDelayMs := 450, startX := x, startY := y,
             fired := false } := by
    simp only [handleTouchMove, hstart]
    simp [hnotMoved, hstart]
  have hfire : ∀ srec : FootnoteBindingState, srec.pendingLongPress =
      some { anchor := anchor, timerDelayMs := 450, startX := x, startY := y,
             fired := false } →
      (fireLongPress extractFootnoteText true srec).popoverVisible = true ∧
      (fireLongPress extractFootnoteText true srec).popoverText = footnoteText ∧
      (fireLongPress extractFootnoteText true srec).suppressClickAnchor = some anchor ∧
      (fireLongPress extractFootnoteText true srec).suppressClickTimer = some 900 ∧
      (fireLongPress extractFootnoteText true srec).autoHideTimer = some 2000 := by
    intro srec hpend
    simp [fireLongPress, hpend, hextract, showPopover, startSuppressClick, scheduleAutoHide,
      clearAutoHide, clearSuppressClick, SUPPRESS_CLICK_MS, AUTO_HIDE_MS]
  obtain ⟨hvis, htext, hanchor, htimer, hauto⟩ := hfire _ hmove
  refine ⟨hstart, hmove, ⟨hvis, htext, hanchor, htimer, hauto⟩, ⟨?_, ?_⟩, ?_⟩
  · simp [handleClick, hanchor]
  · simp [handleClick, hanchor, clearSuppressClick]
  · simp [handleClick, suppressClickTimerFire, clearSuppressClick]

/-- C6 witness: anchor 1 with extractable text "note text", a press at
(20, 30) moving to (25, 30): the long press arms, fires, the in-window
click is fully intercepted, and the post-window click is not. -/
theorem c6_long_press_click_suppression_witness :
    ((handleClick (fireLongPress (fun a => if a = 1 then some "note text" else none) true
        (handleTouchMove (handleTouchStart (fun a => if a = 1 then some "note text" else none)
          ⟨none, none, none, none, none, false, ""⟩ (some 1) (some (20, 30)))
          (some (25, 30)))) (some 1)).2 = ⟨true, true, true⟩) ∧
    (handleClick (suppressClickTimerFire
        (fireLongPress (fun a => if a = 1 then some "note text" else none) true
          (handleTouchMove (handleTouchStart (fun a => if a = 1 then some "note text" else none)
            ⟨none, none, none, none, none, false, ""⟩ (some 1) (some (20, 30)))
            (some (25, 30))))) (some 1)).2 = clickNotIntercepted :=
  ⟨((c6_long_press_click_suppression (fun a => if a = 1 then some "note text" else none)
      ⟨none, none, none, none, none, false, ""⟩ 1 "note text" 20 30 25 30
      (by decide)
      (by norm_num [TOUCH_MOVE_CANCEL_THRESHOLD_PX])
      (by norm_num [TOUCH_MOVE_CANCEL_THRESHOLD_PX])).2.2.2.1).1,
    (c6_long_press_click_suppression (fun a => if a = 1 then some "note text" else none)
      ⟨none, none, none, none, none, false, ""⟩ 1 "note text" 20 30 25 30
      (by decide)
      (by norm_num [TOUCH_MOVE_CANCEL_THRESHOLD_PX])
      (by norm_num [TOUCH_MOVE_CANCEL_THRESHOLD_PX])).2.2.2.2⟩

/-- `allocItemCopies` appends one item cell per value and hands out the
consecutive fresh references starting at the old heap length. -/
theorem allocItemCopies_eq (vals : List ReaderToolbarTocItem) : ∀ h : ToolbarHeap,
    allocItemCopies h vals =
      ((h : List CellVal) ++ vals.map CellVal.item,
        List.range' (h : List CellVal).length vals.length) := by
  induction vals with
  | nil =>
    intro h
    simp [allocItemCopies, List.range']
  | cons v rest ih =>
    intro h
    simp only [allocItemCopies, ih ((h : List CellVal) ++ [CellVal.item v])]
    simp [List.range', List.append_assoc]

/-- Reading just past a list prefix lands on the first appended cell. -/
theorem getElem?_append_middle {α : Type} (l : List α) (c : α) (t : List α) :
    (l ++ c :: t)[l.length]? = some c := by
  rw [List.getElem?_append_right (Nat.le_refl _)]
  simp

/-- A successful `readItemRefs` only dereferences live cells. -/
theorem readItemRefs_lt_length (h : ToolbarHeap) (refs : List Nat) :
    ∀ vals : List ReaderToolbarTocItem, readItemRefs h refs = some vals →
      ∀ r ∈ refs, r < (h : List CellVal).length := by
  induction refs with
  | nil => simp
  | cons r rest ih =>
    intro vals hread r2 hmem
    rw [readItemRefs] at hread
    split at hread
    · rename_i v hv
      split at hread
      · rename_i vs hvs
        rcases List.mem_cons.mp hmem with h1 | h2
        · subst h1
          exact (List.getElem?_eq_some_iff.mp hv).1
        · exact ih vs hvs r2 h2
      · exact absurd hread (by simp)
    · exact absurd hread (by simp)

/-- `readItemRefs` only depends on the cells it dereferences. -/
theorem readItemRefs_frame (h h2 : ToolbarHeap) (refs : List Nat)
    (hagree : ∀ r ∈ refs, (h2 : List CellVal)[r]? = (h : List CellVal)[r]?) :
    readItemRefs h2 refs = readItemRefs h refs := by
  induction refs with
  | nil => rfl
  | cons r rest ih =>
    rw [readItemRefs, readItemRefs, hagree r (by simp),
      ih (fun r2 hmem => hagree r2 (List.mem_cons_of_mem r hmem))]

/-- The freshly allocated copies read back as exactly the copied
values, whatever cells follow them on the heap. -/
theorem readItemRefs_copies (vals : List ReaderToolbarTocItem) : ∀ h t : ToolbarHeap,
    readItemRefs ((h : List CellVal) ++ vals.map CellVal.item ++ t)
      (List.range' (h : List CellVal).length vals.length) = some vals := by
  induction vals with
  | nil =>
    intro h t
    simp [readItemRefs, List.range']
  | cons v rest ih =>
    intro h t
    have hidx : ((h : List CellVal) ++ (v :: rest).map CellVal.item ++ t)[
        (h : List CellVal).length]? = some (CellVal.item v) := by
      rw [List.map_cons, List.append_assoc]
      exact getElem?_append_middle h _ _
    rw [show List.range' (h : List CellVal).length (v :: rest).length =
      (h : List CellVal).length ::
        List.range' ((h : List CellVal).length + 1) rest.length from rfl]
    rw [readItemRefs, hidx]
    have hrec : readItemRefs ((h : List CellVal) ++ (v :: rest).map CellVal.item ++ t)
        (List.range' ((h : List CellVal).length + 1) rest.length) = some rest := by
      have hstep := ih ((h : List CellVal) ++ [CellVal.item v]) t
      simpa [List.append_assoc] using hstep
    rw [hrec]

/-- Evaluation of heap-level `getToolbarState` when the internal array
and its items are readable: the copies land at the end of the heap and
the returned reference is the fresh array cell. -/
theorem getToolbarStateHeap_eval (h : ToolbarHeap) (a : Nat) (refs : List Nat)
    (vals : List ReaderToolbarTocItem)
    (harr : (h : List CellVal)[a]? = some (CellVal.arr refs))
    (hread : readItemRefs h refs = some vals) :
    getToolbarStateHeap h a =
      some ((h : List CellVal) ++ vals.map CellVal.item ++
          [CellVal.arr (List.range' (h : List CellVal).length vals.length)],
        (h : List CellVal).length + vals.length) := by
  unfold getToolbarStateHeap
  rw [harr]
  simp [hread, allocItemCopies_eq]

/-- Reading the snapshot array reference recovers the copied values. -/
theorem readToolbarArray_snapshot (h : ToolbarHeap) (vals : List ReaderToolbarTocItem) :
    readToolbarArray ((h : List CellVal) ++ vals.map CellVal.item ++
        [CellVal.arr (List.range' (h : List CellVal).length vals.length)])
      ((h : List CellVal).length + vals.length) = some vals := by
  unfold readToolbarArray
  have hidx : ((h : List CellVal) ++ vals.map CellVal.item ++
      [CellVal.arr (List.range' (h : List CellVal).length vals.length)])[
        (h : List CellVal).length + vals.length]? =
      some (CellVal.arr (List.range' (h : List CellVal).length vals.length)) := by
    have hlen : (h : List CellVal).length + vals.length =
        ((h : List CellVal) ++ vals.map CellVal.item).length := by simp
    rw [hlen]
    exact getElem?_append_middle _ _ _
  rw [hidx]
  exact readItemRefs_copies vals h _

/-- C10: heap-level `getToolbarState` returns a reference to a freshly
allocated array of freshly allocated item copies (every returned
reference is at or beyond the pre-call heap length, while the view's
internal array and items live strictly below it), whose values equal the
internal items; writing any value into any such fresh cell leaves the
view's internal toolbar items unchanged, and a later `getToolbarState`
on the mutated heap still returns a snapshot with the original values
(the same state every listener is handed). -/
theorem c10_toolbar_snapshot_isolation (h : ToolbarHeap) (internalArrRef : Nat)
    (refs : List Nat) (vals : List ReaderToolbarTocItem) (r : Nat) (v : CellVal)
    (harr : (h : List CellVal)[internalArrRef]? = some (CellVal.arr refs))
    (hread : readItemRefs h refs = some vals)
    (hfresh : (h : List CellVal).length ≤ r) :
    getToolbarStateHeap h internalArrRef =
      some ((h : List CellVal) ++ vals.map CellVal.item ++
          [CellVal.arr (List.range' (h : List CellVal).length vals.length)],
        (h : List CellVal).length + vals.length) ∧
    (∀ ir ∈ List.range' (h : List CellVal).length vals.length,
      (h : List CellVal).length ≤ ir) ∧
    (h : List CellVal).length ≤ (h : List CellVal).length + vals.length ∧
    internalArrRef < (h : List CellVal).length ∧
    readToolbarArray ((h : List CellVal) ++ vals.map CellVal.item ++
        [CellVal.arr (List.range' (h : List CellVal).length vals.length)])
      ((h : List CellVal).length + vals.length) = some vals ∧
    readToolbarArray h internalArrRef = some vals ∧
    readToolbarArray (writeCell ((h : List CellVal) ++ vals.map CellVal.item ++
        [CellVal.arr (List.range' (h : List CellVal).length vals.length)]) r v)
      internalArrRef = some vals ∧
    (∃ h2 snapRef2,
      getToolbarStateHeap (writeCell ((h : List CellVal) ++ vals.map CellVal.item ++
          [CellVal.arr (List.range' (h : List CellVal).length vals.length)]) r v)
        internalArrRef = some (h2, snapRef2) ∧
      readToolbarArray h2 snapRef2 = some vals) := by
  have hlt : internalArrRef < (h : List CellVal).length :=
    (List.getElem?_eq_some_iff.mp harr).1
  have hrefsLt : ∀ r2 ∈ refs, r2 < (h : List CellVal).length :=
    readItemRefs_lt_length h refs vals hread
  have hframe : ∀ k, k < (h : List CellVal).length →
      ((writeCell ((h : List CellVal) ++ vals.map CellVal.item ++
        [CellVal.arr (List.range' (h : List CellVal).length vals.length)]) r v) :
          List CellVal)[k]? = (h : List CellVal)[k]? := by
    intro k hk
    unfold writeCell
    rw [List.getElem?_set_ne (by omega : r ≠ k)]
    rw [List.getElem?_append_left (by simp; omega)]
    rw [List.getElem?_append_left hk]
  have hwArr : ((writeCell ((h : List CellVal) ++ vals.map CellVal.item ++
      [CellVal.arr (List.range' (h : List CellVal).length vals.length)]) r v) :
        List CellVal)[internalArrRef]? = some (CellVal.arr refs) := by
    rw [hframe internalArrRef hlt]
    exact harr
  have hwRead : readItemRefs (writeCell ((h : List CellVal) ++ vals.map CellVal.item ++
      [CellVal.arr (List.range' (h : List CellVal).length vals.length)]) r v) refs =
      some vals := by
    rw [readItemRefs_frame h _ refs (fun r2 hmem => hframe r2 (hrefsLt r2 hmem))]
    exact hread
  refine ⟨getToolbarStateHeap_eval h internalArrRef refs vals harr hread, ?_, ?_, hlt, ?_,
    ?_, ?_, ?_⟩
  · intro ir hir
    rcases List.mem_range'.mp hir with ⟨i, hi, heq⟩
    omega
  · omega
  · exact readToolbarArray_snapshot h vals
  · unfold readToolbarArray
    rw [harr]
    exact hread
  · unfold readToolbarArray
    rw [hwArr]
    exact hwRead
  · refine ⟨_, _, getToolbarStateHeap_eval _ internalArrRef refs vals hwArr hwRead, ?_⟩
    exact readToolbarArray_snapshot _ vals

/-- C10 witness: a heap with one internal item and the internal array at
reference 1; overwriting the freshly returned item copy (reference 2)
does not change what the internal array reads back. -/
theorem c10_toolbar_snapshot_isolation_witness :
    readToolbarArray (writeCell ([CellVal.item ⟨"ch1", "Chapter 1", "ch1"⟩, CellVal.arr [0]] ++
        [⟨"ch1", "Chapter 1", "ch1"⟩].map CellVal.item ++
        [CellVal.arr (List.range'
          ([CellVal.item ⟨"ch1", "Chapter 1", "ch1"⟩, CellVal.arr [0]] :
            List CellVal).length 1)]) 2 (CellVal.item ⟨"zzz", "Z", "zzz"⟩))
      1 = some [⟨"ch1", "Chapter 1", "ch1"⟩] :=
  (c10_toolbar_snapshot_isolation
    [CellVal.item ⟨"ch1", "Chapter 1", "ch1"⟩, CellVal.arr [0]] 1 [0]
    [⟨"ch1", "Chapter 1", "ch1"⟩] 2 (CellVal.item ⟨"zzz", "Z", "zzz"⟩)
    (by decide) (by decide) (by decide)).2.2.2.2.2.2.1

end Reader







